import Mathlib

/-!
Shallow embedding of the AVR-ATmega16-Joystick repository's direction
classification pipeline (src/src/joystick.c, src/src/adc.c, the constants of
src/include/config.h, and the polling loop of
src/examples/direction_display/main.c), together with proofs of the spec's
claims about it.  Axis values are 8-bit unsigned integers, modelled as `Nat`
with explicit range hypotheses (`≤ 255`) or `% 2^w` where C performs a
narrowing conversion.
-/

namespace AVRJoystick

/-! Constants from include/config.h. -/

def ADC_MAX : Nat := 255

def THRESHOLD_NORTH_Y : Nat := 240

def THRESHOLD_SOUTH_Y : Nat := 50

def THRESHOLD_EAST_X : Nat := 240

def THRESHOLD_WEST_X : Nat := 70

def CENTER_X_MIN : Nat := 70

def CENTER_X_MAX : Nat := 180

def CENTER_Y_MIN : Nat := 110

def CENTER_Y_MAX : Nat := 160

def DIAGONAL_THRESHOLD_HIGH : Nat := 230

def DIAGONAL_THRESHOLD_LOW : Nat := 50

/-- The direction enumeration of include/joystick.h (`joystick_direction_t`),
with the same constructor order, so the underlying C enum values are
`DIR_CENTER = 0` up to `DIR_SOUTH_WEST = 8`. -/
inductive joystick_direction_t : Type where
  | DIR_CENTER
  | DIR_NORTH
  | DIR_SOUTH
  | DIR_EAST
  | DIR_WEST
  | DIR_NORTH_EAST
  | DIR_NORTH_WEST
  | DIR_SOUTH_EAST
  | DIR_SOUTH_WEST
deriving DecidableEq, Repr

open joystick_direction_t

/-- The integer value the C enum assigns to each `joystick_direction_t`
constructor (0..8, in declaration order). -/
def joystick_direction_t.toInt : joystick_direction_t → Int
  | DIR_CENTER => 0
  | DIR_NORTH => 1
  | DIR_SOUTH => 2
  | DIR_EAST => 3
  | DIR_WEST => 4
  | DIR_NORTH_EAST => 5
  | DIR_NORTH_WEST => 6
  | DIR_SOUTH_EAST => 7
  | DIR_SOUTH_WEST => 8

/-- The static lookup table `direction_names` of src/src/joystick.c, indexed
by the enum value. -/
def direction_names : List String :=
  ["C", "N", "S", "E", "W", "NE", "NW", "SE", "SW"]

/-- `joystick_is_centered` from src/src/joystick.c: a `uint8_t` that is the
C boolean value (1 or 0) of the center-zone test. -/
def joystick_is_centered (x y : Nat) : Nat :=
  if CENTER_X_MIN ≤ x ∧ x ≤ CENTER_X_MAX ∧ CENTER_Y_MIN ≤ y ∧ y ≤ CENTER_Y_MAX then 1
  else 0

/-- `joystick_get_direction` from src/src/joystick.c: the if-cascade exactly
as written in the source, first match wins.  Note the East and West rules
compare `y` against `CENTER_X_MAX`, as the source does. -/
def joystick_get_direction (x y : Nat) : joystick_direction_t :=
  if joystick_is_centered x y ≠ 0 then DIR_CENTER
  else if x > DIAGONAL_THRESHOLD_HIGH ∧ y > DIAGONAL_THRESHOLD_HIGH then DIR_NORTH_EAST
  else if x < DIAGONAL_THRESHOLD_LOW ∧ y > ADC_MAX - DIAGONAL_THRESHOLD_LOW then DIR_NORTH_WEST
  else if x > DIAGONAL_THRESHOLD_HIGH ∧ y < DIAGONAL_THRESHOLD_LOW then DIR_SOUTH_EAST
  else if x < DIAGONAL_THRESHOLD_LOW ∧ y < DIAGONAL_THRESHOLD_LOW then DIR_SOUTH_WEST
  else if y ≥ THRESHOLD_NORTH_Y ∧ CENTER_X_MIN ≤ x ∧ x ≤ CENTER_X_MAX then DIR_NORTH
  else if y ≤ THRESHOLD_SOUTH_Y ∧ CENTER_X_MIN ≤ x ∧ x ≤ CENTER_X_MAX then DIR_SOUTH
  else if x ≥ THRESHOLD_EAST_X ∧ y ≥ CENTER_Y_MIN ∧ y ≤ CENTER_X_MAX then DIR_EAST
  else if x ≤ THRESHOLD_WEST_X ∧ y ≥ CENTER_Y_MIN ∧ y ≤ CENTER_X_MAX then DIR_WEST
  else DIR_CENTER

/-- `joystick_direction_to_string` from src/src/joystick.c.  The C parameter
is an enum, i.e. an integer that may lie outside 0..8, so it is modelled on
`Int`: in range it indexes `direction_names`, otherwise it returns `"?"`. -/
def joystick_direction_to_string (dir : Int) : String :=
  if 0 ≤ dir ∧ dir ≤ DIR_SOUTH_WEST.toInt then direction_names.getD dir.toNat "?"
  else "?"

/-- `adc_to_percent` from src/src/adc.c:
`(uint8_t)((uint16_t)value * 100 / 255)`.  On the AVR `int` is 16 bits wide,
so the product is computed modulo 2^16 and the final cast truncates
modulo 2^8. -/
def adc_to_percent (value : Nat) : Nat :=
  value * 100 % 65536 / 255 % 256

/-- Modelled from the spec: the rule cascade of spec §4.3, evaluated in
strict order with first match winning, exactly as the spec's sentences state
it — in particular the East and West rules require
`CENTER_Y_MIN ≤ y ≤ CENTER_Y_MAX`.  This definition follows the spec's words
and is compared against `joystick_get_direction`, which follows the source. -/
def spec_classify (x y : Nat) : joystick_direction_t :=
  if CENTER_X_MIN ≤ x ∧ x ≤ CENTER_X_MAX ∧ CENTER_Y_MIN ≤ y ∧ y ≤ CENTER_Y_MAX then DIR_CENTER
  else if x > DIAGONAL_THRESHOLD_HIGH ∧ y > DIAGONAL_THRESHOLD_HIGH then DIR_NORTH_EAST
  else if x < DIAGONAL_THRESHOLD_LOW ∧ y > 255 - DIAGONAL_THRESHOLD_LOW then DIR_NORTH_WEST
  else if x > DIAGONAL_THRESHOLD_HIGH ∧ y < DIAGONAL_THRESHOLD_LOW then DIR_SOUTH_EAST
  else if x < DIAGONAL_THRESHOLD_LOW ∧ y < DIAGONAL_THRESHOLD_LOW then DIR_SOUTH_WEST
  else if y ≥ THRESHOLD_NORTH_Y ∧ CENTER_X_MIN ≤ x ∧ x ≤ CENTER_X_MAX then DIR_NORTH
  else if y ≤ THRESHOLD_SOUTH_Y ∧ CENTER_X_MIN ≤ x ∧ x ≤ CENTER_X_MAX then DIR_SOUTH
  else if x ≥ THRESHOLD_EAST_X ∧ CENTER_Y_MIN ≤ y ∧ y ≤ CENTER_Y_MAX then DIR_EAST
  else if x ≤ THRESHOLD_WEST_X ∧ CENTER_Y_MIN ≤ y ∧ y ≤ CENTER_Y_MAX then DIR_WEST
  else DIR_CENTER

/-- Modelled from the spec: the same cascade as `spec_classify`, amended only
in the East and West rules, whose upper `y` bound is `CENTER_X_MAX` (= 180)
as in the source, rather than `CENTER_Y_MAX` (= 160). -/
def spec_classify_amended (x y : Nat) : joystick_direction_t :=
  if CENTER_X_MIN ≤ x ∧ x ≤ CENTER_X_MAX ∧ CENTER_Y_MIN ≤ y ∧ y ≤ CENTER_Y_MAX then DIR_CENTER
  else if x > DIAGONAL_THRESHOLD_HIGH ∧ y > DIAGONAL_THRESHOLD_HIGH then DIR_NORTH_EAST
  else if x < DIAGONAL_THRESHOLD_LOW ∧ y > 255 - DIAGONAL_THRESHOLD_LOW then DIR_NORTH_WEST
  else if x > DIAGONAL_THRESHOLD_HIGH ∧ y < DIAGONAL_THRESHOLD_LOW then DIR_SOUTH_EAST
  else if x < DIAGONAL_THRESHOLD_LOW ∧ y < DIAGONAL_THRESHOLD_LOW then DIR_SOUTH_WEST
  else if y ≥ THRESHOLD_NORTH_Y ∧ CENTER_X_MIN ≤ x ∧ x ≤ CENTER_X_MAX then DIR_NORTH
  else if y ≤ THRESHOLD_SOUTH_Y ∧ CENTER_X_MIN ≤ x ∧ x ≤ CENTER_X_MAX then DIR_SOUTH
  else if x ≥ THRESHOLD_EAST_X ∧ CENTER_Y_MIN ≤ y ∧ y ≤ CENTER_X_MAX then DIR_EAST
  else if x ≤ THRESHOLD_WEST_X ∧ CENTER_Y_MIN ≤ y ∧ y ≤ CENTER_X_MAX then DIR_WEST
  else DIR_CENTER

/-- Modelled from the spec: the direction-to-label mapping as the spec's
sentence states it, `{Center:"C", North:"N", South:"S", East:"E", West:"W",
NorthEast:"NE", NorthWest:"NW", SouthEast:"SE", SouthWest:"SW"}`. -/
def dirLabel : joystick_direction_t → String
  | DIR_CENTER => "C"
  | DIR_NORTH => "N"
  | DIR_SOUTH => "S"
  | DIR_EAST => "E"
  | DIR_WEST => "W"
  | DIR_NORTH_EAST => "NE"
  | DIR_NORTH_WEST => "NW"
  | DIR_SOUTH_EAST => "SE"
  | DIR_SOUTH_WEST => "SW"

/-- One position sample classified, as the loop body of
src/examples/direction_display/main.c does with `joystick_get_direction(pos.x, pos.y)`. -/
def classifyPair (p : Nat × Nat) : joystick_direction_t :=
  joystick_get_direction p.1 p.2

/-- The polling loop of src/examples/direction_display/main.c, run over a
finite sequence of position samples: each cycle classifies the sample and,
when the direction differs from `last_dir` (`if (dir != last_dir)`),
dispatches it to the display and updates `last_dir`; otherwise it suppresses
the update.  The returned list is the sequence of dispatched directions. -/
def pollingLoop : List (Nat × Nat) → joystick_direction_t → List joystick_direction_t
  | [], _ => []
  | p :: ps, last_dir =>
    if classifyPair p = last_dir then pollingLoop ps last_dir
    else classifyPair p :: pollingLoop ps (classifyPair p)

/-- The previous-direction state followed by the dispatch trace is exactly
the destuttering (with respect to `≠`) of the classified sample sequence
seeded with that state: dispatches happen exactly at direction changes. -/
theorem pollingLoop_eq_destutter (ps : List (Nat × Nat)) (prev : joystick_direction_t) :
    prev :: pollingLoop ps prev = List.destutter' (· ≠ ·) prev (ps.map classifyPair) := by
  induction ps generalizing prev with
  | nil => rfl
  | cons p ps ih =>
    rw [List.map_cons, List.destutter'_cons]
    by_cases h : classifyPair p = prev
    · rw [if_neg (by simp [h]), pollingLoop, if_pos h, ih]
    · rw [if_pos (Ne.symm h), pollingLoop, if_neg h, ih]

/-! Theorems for the concrete boundary claims. -/

/-- C6: `joystick_get_direction(255, 255) = DIR_NORTH_EAST`: when both axes
exceed `DIAGONAL_THRESHOLD_HIGH = 230` the classifier returns NorthEast. -/
theorem get_direction_255_255_north_east :
    joystick_get_direction 255 255 = DIR_NORTH_EAST := by decide

/-- C5: `joystick_get_direction(255, 128) = DIR_EAST`: with `x = 255` (at or
above `THRESHOLD_EAST_X = 240`) and `y = 128`, the classifier returns East. -/
theorem get_direction_255_128_east :
    joystick_get_direction 255 128 = DIR_EAST := by decide

/-- C1 counterexample: at (x, y) = (255, 170) the source classifier returns
East (its East rule accepts `y ≤ CENTER_X_MAX = 180`), while the spec's rule
cascade as written (East requires `y ≤ CENTER_Y_MAX = 160`) falls through to
Center, so the claimed equality fails. -/
theorem get_direction_ne_spec_classify_at_255_170 :
    joystick_get_direction 255 170 ≠ spec_classify 255 170 ∧
    joystick_get_direction 255 170 = DIR_EAST ∧
    spec_classify 255 170 = DIR_CENTER := by decide

/-- C1 (amended): for every (x, y) in [0,255]×[0,255],
`joystick_get_direction x y` equals the spec's rule cascade evaluated in
strict order with first match winning, with the East and West rules' upper
`y` bound amended from `CENTER_Y_MAX` to `CENTER_X_MAX` (as the source
compares). -/
theorem get_direction_eq_spec_classify_amended (x y : Nat)
    (hx : x ≤ 255) (hy : y ≤ 255) :
    joystick_get_direction x y = spec_classify_amended x y := by
  unfold joystick_get_direction spec_classify_amended
  refine if_congr ?_ rfl rfl
  unfold joystick_is_centered
  split <;> simp_all

/-- C1 (amended) witness: the amended equality instantiated at the concrete
input (255, 170), where the original claim had its counterexample. -/
theorem get_direction_eq_spec_classify_amended_witness :
    joystick_get_direction 255 170 = spec_classify_amended 255 170 :=
  get_direction_eq_spec_classify_amended 255 170 (by decide) (by decide)

/-- C2: `joystick_get_direction` is total on [0,255]×[0,255]: every pair of
8-bit values yields one of the nine `joystick_direction_t` values. -/
theorem get_direction_total (x y : Fin 256) :
    joystick_get_direction x.val y.val = DIR_CENTER ∨
    joystick_get_direction x.val y.val = DIR_NORTH ∨
    joystick_get_direction x.val y.val = DIR_SOUTH ∨
    joystick_get_direction x.val y.val = DIR_EAST ∨
    joystick_get_direction x.val y.val = DIR_WEST ∨
    joystick_get_direction x.val y.val = DIR_NORTH_EAST ∨
    joystick_get_direction x.val y.val = DIR_NORTH_WEST ∨
    joystick_get_direction x.val y.val = DIR_SOUTH_EAST ∨
    joystick_get_direction x.val y.val = DIR_SOUTH_WEST := by
  generalize joystick_get_direction x.val y.val = d
  cases d <;> simp

/-- C3: for every (x, y) in [0,255]×[0,255], converting the classified
direction's enum value to a string yields exactly the label the fixed mapping
assigns to that direction, is one of the nine table entries, and is never the
out-of-range default `"?"`. -/
theorem to_string_of_get_direction_labels (x y : Fin 256) :
    joystick_direction_to_string (joystick_get_direction x.val y.val).toInt =
      dirLabel (joystick_get_direction x.val y.val) ∧
    joystick_direction_to_string (joystick_get_direction x.val y.val).toInt ∈
      direction_names ∧
    joystick_direction_to_string (joystick_get_direction x.val y.val).toInt ≠ "?" := by
  generalize joystick_get_direction x.val y.val = d
  cases d <;> exact ⟨rfl, by decide, by decide⟩

/-- C4: `joystick_is_centered x y` returns 1 exactly when x lies in
[CENTER_X_MIN, CENTER_X_MAX] and y in [CENTER_Y_MIN, CENTER_Y_MAX] (0
otherwise), and whenever it returns 1 the classifier returns `DIR_CENTER`. -/
theorem is_centered_iff_and_implies_center (x y : Nat) :
    (joystick_is_centered x y = 1 ↔
      (CENTER_X_MIN ≤ x ∧ x ≤ CENTER_X_MAX ∧ CENTER_Y_MIN ≤ y ∧ y ≤ CENTER_Y_MAX)) ∧
    (joystick_is_centered x y ≠ 1 → joystick_is_centered x y = 0) ∧
    (joystick_is_centered x y = 1 → joystick_get_direction x y = DIR_CENTER) := by
  refine ⟨?_, ?_, ?_⟩
  · unfold joystick_is_centered
    split <;> simp_all
  · unfold joystick_is_centered
    split <;> simp
  · intro h
    simp [joystick_get_direction, h]

/-- C4 witness: at the concrete input (128, 128) the predicate returns 1,
the band membership holds, and the classifier returns Center. -/
theorem is_centered_iff_and_implies_center_witness :
    joystick_is_centered 128 128 = 1 ∧ joystick_get_direction 128 128 = DIR_CENTER :=
  ⟨(is_centered_iff_and_implies_center 128 128).1.mpr (by decide),
    (is_centered_iff_and_implies_center 128 128).2.2
      ((is_centered_iff_and_implies_center 128 128).1.mpr (by decide))⟩

/-- C7: any position in the uncovered gap — outside the center zone, outside
all four diagonal corners, and satisfying none of the four cardinal rules'
axis conditions — falls through to the Center fallback. -/
theorem gap_falls_through_to_center (x y : Nat)
    (h1 : ¬(CENTER_X_MIN ≤ x ∧ x ≤ CENTER_X_MAX ∧ CENTER_Y_MIN ≤ y ∧ y ≤ CENTER_Y_MAX))
    (h2 : ¬(x > DIAGONAL_THRESHOLD_HIGH ∧ y > DIAGONAL_THRESHOLD_HIGH))
    (h3 : ¬(x < DIAGONAL_THRESHOLD_LOW ∧ y > ADC_MAX - DIAGONAL_THRESHOLD_LOW))
    (h4 : ¬(x > DIAGONAL_THRESHOLD_HIGH ∧ y < DIAGONAL_THRESHOLD_LOW))
    (h5 : ¬(x < DIAGONAL_THRESHOLD_LOW ∧ y < DIAGONAL_THRESHOLD_LOW))
    (h6 : ¬(y ≥ THRESHOLD_NORTH_Y ∧ CENTER_X_MIN ≤ x ∧ x ≤ CENTER_X_MAX))
    (h7 : ¬(y ≤ THRESHOLD_SOUTH_Y ∧ CENTER_X_MIN ≤ x ∧ x ≤ CENTER_X_MAX))
    (h8 : ¬(x ≥ THRESHOLD_EAST_X ∧ y ≥ CENTER_Y_MIN ∧ y ≤ CENTER_X_MAX))
    (h9 : ¬(x ≤ THRESHOLD_WEST_X ∧ y ≥ CENTER_Y_MIN ∧ y ≤ CENTER_X_MAX)) :
    joystick_get_direction x y = DIR_CENTER := by
  unfold joystick_get_direction joystick_is_centered
  rw [if_neg (by simpa using h1)]
  rw [if_neg h2, if_neg h3, if_neg h4, if_neg h5, if_neg h6, if_neg h7, if_neg h8, if_neg h9]

/-- C7 witness: (200, 200) lies in the uncovered gap (not center, both
coordinates at most `DIAGONAL_THRESHOLD_HIGH = 230`, no cardinal axis
condition holds) and classifies as Center. -/
theorem gap_falls_through_to_center_witness :
    joystick_get_direction 200 200 = DIR_CENTER :=
  gap_falls_through_to_center 200 200 (by decide) (by decide) (by decide) (by decide)
    (by decide) (by decide) (by decide) (by decide) (by decide)

/-- C9: for every x in [240,255] and y in [110,180] the classifier returns
East: the East rule's actual Y band runs up to `CENTER_X_MAX = 180`, not
`CENTER_Y_MAX = 160`, so y in (160,180] with x ≥ 240 classifies as East
rather than falling through to Center. -/
theorem east_band_runs_to_center_x_max (x y : Nat)
    (hx1 : 240 ≤ x) (hx2 : x ≤ 255) (hy1 : 110 ≤ y) (hy2 : y ≤ 180) :
    joystick_get_direction x y = DIR_EAST := by
  unfold joystick_get_direction joystick_is_centered
  simp only [CENTER_X_MIN, CENTER_X_MAX, CENTER_Y_MIN, CENTER_Y_MAX, THRESHOLD_NORTH_Y,
    THRESHOLD_SOUTH_Y, THRESHOLD_EAST_X, THRESHOLD_WEST_X, DIAGONAL_THRESHOLD_HIGH,
    DIAGONAL_THRESHOLD_LOW, ADC_MAX]
  rw [if_neg (by simp; omega), if_neg (by omega), if_neg (by omega), if_neg (by omega),
    if_neg (by omega), if_neg (by omega), if_neg (by omega), if_pos (by omega)]

/-- C9 witness: at (255, 170), with y in the contested band (160, 180], the
classifier returns East. -/
theorem east_band_runs_to_center_x_max_witness :
    joystick_get_direction 255 170 = DIR_EAST :=
  east_band_runs_to_center_x_max 255 170 (by decide) (by decide) (by decide) (by decide)

/-- C10: for every value in [0,255], `adc_to_percent value` equals the
truncating quotient `value * 100 / 255` with no overflow (the 16-bit
intermediate product is at most 25500), the result is in [0,100], the
endpoints map to 0 and 100, and the function is monotone nondecreasing on
[0,255]. -/
theorem adc_to_percent_correct (v w : Nat) (hv : v ≤ 255) (hvw : v ≤ w) (hw : w ≤ 255) :
    adc_to_percent v = v * 100 / 255 ∧
    v * 100 ≤ 25500 ∧
    adc_to_percent v ≤ 100 ∧
    adc_to_percent 0 = 0 ∧
    adc_to_percent 255 = 100 ∧
    adc_to_percent v ≤ adc_to_percent w := by
  unfold adc_to_percent
  have h1 : v * 100 % 65536 = v * 100 := Nat.mod_eq_of_lt (by omega)
  have h2 : w * 100 % 65536 = w * 100 := Nat.mod_eq_of_lt (by omega)
  rw [h1, h2]
  have h3 : v * 100 / 255 % 256 = v * 100 / 255 := Nat.mod_eq_of_lt (by omega)
  have h4 : w * 100 / 255 % 256 = w * 100 / 255 := Nat.mod_eq_of_lt (by omega)
  rw [h3, h4]
  omega

/-- C10 witness: the statement instantiated at v = 128, w = 200. -/
theorem adc_to_percent_correct_witness :
    adc_to_percent 128 = 128 * 100 / 255 ∧
    128 * 100 ≤ 25500 ∧
    adc_to_percent 128 ≤ 100 ∧
    adc_to_percent 0 = 0 ∧
    adc_to_percent 255 = 100 ∧
    adc_to_percent 128 ≤ adc_to_percent 200 :=
  adc_to_percent_correct 128 200 (by decide) (by decide) (by decide)

/-- C8: starting from previous-direction state Center, the polling loop's
dispatch trace over any sample sequence is exactly the destuttering (with
respect to `≠`) of the classified directions seeded with Center — display
updates occur exactly at direction-change boundaries — and the trace
prefixed with the initial Center state is a `≠`-chain, so no two consecutive
dispatched directions are equal and the first dispatch differs from Center. -/
theorem pollingLoop_dispatches_exactly_on_change (ps : List (Nat × Nat)) :
    DIR_CENTER :: pollingLoop ps DIR_CENTER =
      List.destutter' (· ≠ ·) DIR_CENTER (ps.map classifyPair) ∧
    List.Chain' (· ≠ ·) (DIR_CENTER :: pollingLoop ps DIR_CENTER) := by
  refine ⟨pollingLoop_eq_destutter ps DIR_CENTER, ?_⟩
  rw [pollingLoop_eq_destutter ps DIR_CENTER]
  exact List.destutter'_is_chain' _ _ _

end AVRJoystick
